import Mathlib

set_option allowUnsafeReducibility true

-- The Batteries rational arithmetic is shipped `@[irreducible]`; concrete
-- store states below are evaluated by `decide`, which needs these
-- definitions to unfold (the kernel accepts the resulting proofs either
-- way, so this only widens elaboration-time reduction).
attribute [local semireducible] Rat.add Rat.mul Rat.inv Rat.sub Rat.ofScientific

/-!
Verification development for the request ingestion / pattern-grouping /
session-aggregation core of the `chrome_requests_visualizer` extension.

The TypeScript sources are embedded shallowly:

* `src/lib/url.ts` and `src/lib/tanstackdb/collections.ts` — URL pattern
  normalisation (`generateUrlPattern`) and page-key derivation
  (`parsePageUrl`, two variants that differ on port handling);
* `src/lib/tanstackdb/collections.ts` — `addRequest` / `onNavigate`
  store mutations;
* `src/lib/tanstackdb/useRequestStore.ts` — `cleanupOldSessions`,
  `clearDomain`, `groupedRequests`;
* the legacy `useState`-based store (`useRequestStore` hook) — its
  `addRequest`, which also maintains each session's `requests` list;
* `src/components/RequestList.tsx` — `filteredGroups`.

JavaScript numbers are modelled as `Rat` (exact arithmetic; the program
performs only addition, subtraction, multiplication, comparison and one
division, all exact on the values involved), strings as `String`, and the
`new URL(...)` constructor as the total function `parseURL` below, which
implements WHATWG parsing restricted to the
`scheme://host[:port][/path][?query][#fragment]` shape taken by every URL
this program handles (no userinfo, no path normalisation, no percent
encoding).  `crypto.randomUUID()` and `Date.now()` are modelled as explicit
parameters of each operation.
-/

/-- Result of the `new URL(url)` constructor: the components the program
reads (`origin` is derived below, as in the JS API). -/
structure URLObj where
  scheme : String
  hostname : String
  port : String
  pathname : String
  search : String
  fragment : String
deriving Repr, DecidableEq

/-- The JS `url.origin` accessor: `scheme://host` plus `:port` when a
non-default port is present (default ports are already elided by the
parser, as the JS constructor does). -/
def URLObj.origin (u : URLObj) : String :=
  u.scheme ++ "://" ++ u.hostname ++ (if u.port = "" then "" else ":" ++ u.port)

/-- Split a character list at the first occurrence of `c`; `none` when `c`
does not occur. -/
def splitFirst? (c : Char) : List Char → Option (List Char × List Char)
  | [] => none
  | x :: xs =>
    if x = c then some ([], xs)
    else (splitFirst? c xs).map (fun p => (x :: p.1, p.2))

/-- Split a character list at every occurrence of `c`, like JS
`String.prototype.split` with a single-character separator (so the result
is always non-empty and may contain empty pieces). -/
def splitAll (c : Char) : List Char → List (List Char)
  | [] => [[]]
  | x :: xs =>
    if x = c then [] :: splitAll c xs
    else
      match splitAll c xs with
      | [] => [[x]]
      | g :: gs => (x :: g) :: gs

/-- ASCII lowercasing, as JS `toLowerCase` behaves on the ASCII URLs and
header names this program manipulates. -/
def strToLower (s : String) : String := String.mk (s.data.map Char.toLower)

/-- Model of the `new URL(url)` constructor (see module comment): returns
`none` exactly where the JS constructor throws, which the sources catch. -/
def parseURL (s : String) : Option URLObj :=
  match splitFirst? ':' s.data with
  | none => none
  | some (schemeCs, rest) =>
    if schemeCs.isEmpty || !schemeCs.all Char.isAlpha then none
    else
      match rest with
      | '/' :: '/' :: rest2 =>
        let hostport := rest2.takeWhile fun c => c != '/' && c != '?' && c != '#'
        let tail0 := rest2.drop hostport.length
        if hostport.contains '@' then none
        else
          let hp := match splitFirst? ':' hostport with
            | none => (hostport, ([] : List Char))
            | some p => p
          if hp.1.isEmpty || !hp.2.all Char.isDigit then none
          else
            let scheme := String.mk (schemeCs.map Char.toLower)
            let hostname := String.mk (hp.1.map Char.toLower)
            let rawPort := String.mk hp.2
            let port :=
              if (scheme = "http" && rawPort = "80")
                  || (scheme = "https" && rawPort = "443") then "" else rawPort
            let pathCs := tail0.takeWhile fun c => c != '?' && c != '#'
            let tail1 := tail0.drop pathCs.length
            let pathname := if pathCs.isEmpty then "/" else String.mk pathCs
            let qf : List Char × List Char :=
              match tail1 with
              | '?' :: t =>
                let q := t.takeWhile fun c => c != '#'
                (q, match t.drop q.length with
                    | '#' :: f => f
                    | _ => [])
              | '#' :: f => ([], f)
              | _ => ([], [])
            some ⟨scheme, hostname, port, pathname, String.mk qf.1, String.mk qf.2⟩
      | _ => none

/-- The regex `/^\d+$/` of the sources. -/
def isDigitSeg (s : String) : Bool := !s.data.isEmpty && s.data.all Char.isDigit

/-- A hexadecimal digit, as matched case-insensitively by `[0-9a-f]`. -/
def isHexChar (c : Char) : Bool :=
  c.isDigit || ('a' ≤ c && c ≤ 'f') || ('A' ≤ c && c ≤ 'F')

/-- The regex `/^[0-9a-f]{8}-[0-9a-f]{4}-[0-9a-f]{4}-[0-9a-f]{4}-[0-9a-f]{12}$/i`. -/
def isUUIDSeg (s : String) : Bool :=
  match splitAll '-' s.data with
  | [a, b, c, d, e] =>
    a.length == 8 && b.length == 4 && c.length == 4 && d.length == 4
      && e.length == 12 && (a ++ b ++ c ++ d ++ e).all isHexChar
  | _ => false

/-- The regex `/^[0-9a-f]{24}$/i`. -/
def isHex24 (s : String) : Bool := s.data.length == 24 && s.data.all isHexChar

/-- The per-segment substitution of `generateUrlPattern`, first matching
rule wins (`:id`, then `:uuid`, then `:objectId`, else unchanged). -/
def substituteSegment (part : String) : String :=
  if isDigitSeg part then ":id"
  else if isUUIDSeg part then ":uuid"
  else if isHex24 part then ":objectId"
  else part

/-- `urlObj.pathname.split("/").filter(Boolean)`. -/
def pathParts (pathname : String) : List String :=
  ((splitAll '/' pathname.data).map String.mk).filter (fun p => p ≠ "")

/-- `generateUrlPattern` of `src/lib/url.ts` (the identical function also
appears in `src/lib/tanstackdb/collections.ts` and in the legacy hook):
replace ID-like path segments by placeholders and reassemble
`origin/seg1/.../segN`; on URL parse failure return the input unchanged. -/
def generateUrlPattern (url : String) : String :=
  match parseURL url with
  | some u =>
    u.origin ++ "/" ++ String.intercalate "/" ((pathParts u.pathname).map substituteSegment)
  | none => url

/-- The `{domain, path}` record produced by both `parsePageUrl` variants. -/
structure PageKey where
  domain : String
  path : String
deriving Repr, DecidableEq

namespace Url

/-- `parsePageUrl` of `src/lib/url.ts`: domain is `hostname:port` when a
port is present, bare hostname otherwise; path is the raw pathname;
`{domain: "unknown", path: "/"}` on parse failure. -/
def parsePageUrl (pageUrl : String) : PageKey :=
  match parseURL pageUrl with
  | some u =>
    ⟨if u.port = "" then u.hostname else u.hostname ++ ":" ++ u.port, u.pathname⟩
  | none => ⟨"unknown", "/"⟩

end Url

namespace Collections

/-- `parsePageUrl` of `src/lib/tanstackdb/collections.ts` (the variant the
store's mutations actually call): domain is always the bare hostname — the
port is ignored; `{domain: "unknown", path: "/"}` on parse failure. -/
def parsePageUrl (pageUrl : String) : PageKey :=
  match parseURL pageUrl with
  | some u => ⟨u.hostname, u.pathname⟩
  | none => ⟨"unknown", "/"⟩

end Collections

/-! ## Store data model (src/types/request.ts) -/

/-- `CapturedRequest` of `src/types/request.ts`.  Header maps are modelled
as association lists; numeric fields as exact rationals (see module
comment). -/
structure CapturedRequest where
  id : String
  url : String
  method : String
  status : Int
  statusText : String
  requestHeaders : List (String × String)
  responseHeaders : List (String × String)
  requestBody : Option String
  responseBody : Option String
  startTime : Rat
  endTime : Rat
  duration : Rat
  size : Rat
  type : String
  urlPattern : String
  initiator : String
  pageUrl : String
deriving Repr, DecidableEq

/-- A request as handed to `addRequest`: everything but the store-assigned
`id` and `urlPattern` (the `Omit<CapturedRequest, "id" | "urlPattern">`
argument type). -/
structure NewRequest where
  url : String
  method : String
  status : Int
  statusText : String
  requestHeaders : List (String × String)
  responseHeaders : List (String × String)
  requestBody : Option String
  responseBody : Option String
  startTime : Rat
  endTime : Rat
  duration : Rat
  size : Rat
  type : String
  initiator : String
  pageUrl : String
deriving Repr, DecidableEq

/-- `PageSession` of `src/types/request.ts`. -/
structure PageSession where
  id : String
  pageUrl : String
  domain : String
  path : String
  timestamp : Rat
  requests : List CapturedRequest
deriving Repr, DecidableEq

/-- `RequestGroup` of `src/types/request.ts` (derived, not stored). -/
structure RequestGroup where
  pattern : String
  requests : List CapturedRequest
  count : Nat
  avgDuration : Rat
deriving Repr, DecidableEq

/-- The two collections owned by the store (`requestsCollection` and
`pageSessionsCollection`), read back as arrays by the live queries. -/
structure StoreState where
  requests : List CapturedRequest
  sessions : List PageSession
deriving Repr, DecidableEq

/-- The record `{...request, id, urlPattern: generateUrlPattern(request.url)}`
built at the top of every `addRequest` variant. -/
def mkCaptured (request : NewRequest) (newId : String) : CapturedRequest :=
  { id := newId
    url := request.url
    method := request.method
    status := request.status
    statusText := request.statusText
    requestHeaders := request.requestHeaders
    responseHeaders := request.responseHeaders
    requestBody := request.requestBody
    responseBody := request.responseBody
    startTime := request.startTime
    endTime := request.endTime
    duration := request.duration
    size := request.size
    type := request.type
    urlPattern := generateUrlPattern request.url
    initiator := request.initiator
    pageUrl := request.pageUrl }

namespace Collections

/-- `addRequest` of `src/lib/tanstackdb/collections.ts`, as invoked by the
store hook (which passes the current session list as `existingSessions`).
`crypto.randomUUID()` for the request and the possible new session, and
`Date.now()`, are the explicit arguments `newId`, `sessionId`, `now`.
Inserts the new request into the requests collection and, when no session
with this `pageUrl` exists, inserts a session whose `requests` list is
empty; an existing session is left untouched. -/
def addRequest (request : NewRequest) (newId sessionId : String) (now : Rat)
    (st : StoreState) : CapturedRequest × StoreState :=
  let newRequest := mkCaptured request newId
  let k := parsePageUrl request.pageUrl
  let sessions' :=
    if (st.sessions.find? (fun s => s.pageUrl == request.pageUrl)).isSome then st.sessions
    else st.sessions ++ [{ id := sessionId, pageUrl := request.pageUrl, domain := k.domain,
                           path := k.path, timestamp := now, requests := [] }]
  (newRequest, { requests := st.requests ++ [newRequest], sessions := sessions' })

/-- `onNavigate` of `src/lib/tanstackdb/collections.ts`: insert a fresh
empty session for `newUrl` unless one already exists (idempotent). -/
def onNavigate (newUrl : String) (sessionId : String) (now : Rat)
    (sessions : List PageSession) : List PageSession :=
  let k := parsePageUrl newUrl
  if (sessions.find? (fun s => s.pageUrl == newUrl)).isSome then sessions
  else sessions ++ [{ id := sessionId, pageUrl := newUrl, domain := k.domain,
                      path := k.path, timestamp := now, requests := [] }]

end Collections

namespace Legacy

/-- The session update inside the legacy hook's `addRequest`: append the
new request to the first session whose `pageUrl` matches (`findIndex` +
positional map in the source); `none` when no session matches. -/
def appendToFirstMatch (pageUrl : String) (r : CapturedRequest) :
    List PageSession → Option (List PageSession)
  | [] => none
  | s :: rest =>
    if s.pageUrl = pageUrl then some ({ s with requests := s.requests ++ [r] } :: rest)
    else (appendToFirstMatch pageUrl r rest).map (s :: ·)

/-- `addRequest` of the legacy `useState`-based `useRequestStore` hook:
appends the new request to the request list, then either appends it to the
matching session's `requests` list or creates a session whose `requests`
list is `[newRequest]`. -/
def addRequest (request : NewRequest) (newId sessionId : String) (now : Rat)
    (st : StoreState) : CapturedRequest × StoreState :=
  let newRequest := mkCaptured request newId
  let sessions' :=
    match appendToFirstMatch request.pageUrl newRequest st.sessions with
    | some l => l
    | none =>
      let k := Collections.parsePageUrl request.pageUrl
      st.sessions ++ [{ id := sessionId, pageUrl := request.pageUrl, domain := k.domain,
                        path := k.path, timestamp := now, requests := [newRequest] }]
  (newRequest, { requests := st.requests ++ [newRequest], sessions := sessions' })

end Legacy

namespace Store

/-- `cleanupOldSessions` of `src/lib/tanstackdb/useRequestStore.ts`:
delete every session with `timestamp < cutoff` where
`cutoff = now − retentionHours·3600000`, then delete every request whose
`pageUrl` is not among the still-valid sessions' pageUrls **and** whose
own `startTime` is older than the cutoff. -/
def cleanupOldSessions (retentionHours : Rat) (now : Rat) (st : StoreState) : StoreState :=
  let cutoffTime := now - retentionHours * 60 * 60 * 1000
  let validPageUrls := (st.sessions.filter (fun s => cutoffTime ≤ s.timestamp)).map (·.pageUrl)
  { sessions := st.sessions.filter (fun s => ¬ s.timestamp < cutoffTime),
    requests := st.requests.filter
      (fun r => ¬ (¬ validPageUrls.contains r.pageUrl ∧ r.startTime < cutoffTime)) }

/-- `clearDomain` of `src/lib/tanstackdb/useRequestStore.ts`: delete the
sessions whose `domain` equals the argument and the requests whose
`pageUrl` is one of those sessions' pageUrls. -/
def clearDomain (domain : String) (st : StoreState) : StoreState :=
  let pageUrls := (st.sessions.filter (fun s => s.domain == domain)).map (·.pageUrl)
  { sessions := st.sessions.filter (fun s => ¬ s.domain == domain),
    requests := st.requests.filter (fun r => ¬ pageUrls.contains r.pageUrl) }

/-- The insertion-ordered `Map` building step of `groupedRequests`:
`groups.set(pattern, [...(groups.get(pattern) ?? []), request])`. -/
def insertGroup : List (String × List CapturedRequest) → String → CapturedRequest →
    List (String × List CapturedRequest)
  | [], k, r => [(k, [r])]
  | (k', rs) :: rest, k, r =>
    if k' = k then (k', rs ++ [r]) :: rest else (k', rs) :: insertGroup rest k r

/-- The `Map<string, CapturedRequest[]>` accumulated over the request list
by `groupedRequests`, in first-seen-pattern order (JS `Map` iteration
order). -/
def buildGroups (reqs : List CapturedRequest) : List (String × List CapturedRequest) :=
  reqs.foldl (fun m r => insertGroup m r.urlPattern r) []

/-- The comparison implied by the comparator `(a, b) => a.startTime - b.startTime`. -/
def startLE (a b : CapturedRequest) : Prop := a.startTime ≤ b.startTime

instance : DecidableRel startLE :=
  fun a b => inferInstanceAs (Decidable (a.startTime ≤ b.startTime))

instance : IsTotal CapturedRequest startLE := ⟨fun a b => le_total a.startTime b.startTime⟩

instance : IsTrans CapturedRequest startLE := ⟨fun _ _ _ h1 h2 => le_trans h1 h2⟩

/-- `reqs.sort((a, b) => a.startTime - b.startTime)` — JS `Array.sort` is a
stable ascending sort, and a stable sort's output is uniquely determined,
so any stable sort models it exactly. -/
def sortByStartTime (rs : List CapturedRequest) : List CapturedRequest :=
  rs.insertionSort startLE

/-- The arithmetic mean computation
`reqs.reduce((sum, r) => sum + r.duration, 0) / reqs.length`. -/
def meanDuration (rs : List CapturedRequest) : Rat :=
  (rs.map (·.duration)).sum / (rs.length : Rat)

/-- `groupedRequests` of `src/lib/tanstackdb/useRequestStore.ts` (the
identical derivation also appears in both legacy hooks): partition the
request list by `urlPattern`, each group carrying its members sorted
ascending by `startTime`, their count, and their mean duration. -/
def groupedRequests (reqs : List CapturedRequest) : List RequestGroup :=
  (buildGroups reqs).map (fun e =>
    { pattern := e.1
      requests := sortByStartTime e.2
      count := e.2.length
      avgDuration := meanDuration e.2 })

end Store

/-! ## Spec-side predicates, the operation machine, and concrete fixtures -/

/-- Spec-side classifier for the substitution rules, first matching rule
wins: the placeholder a segment receives, or `none` for a literal
segment. -/
def segSub? (s : String) : Option String :=
  if isDigitSeg s then some ":id"
  else if isUUIDSeg s then some ":uuid"
  else if isHex24 s then some ":objectId"
  else none

/-- Two corresponding path segments are interchangeable for pattern
generation: equal, or both replaced by the same placeholder. -/
def segCompat (a b : String) : Bool :=
  a == b ||
    (match segSub? a, segSub? b with
     | some p, some q => p == q
     | _, _ => false)

/-- Fully applied request record used by concrete witnesses: a GET request
with the given id, url, page, start time and duration. -/
def mkDemoRequest (rid url pageUrl : String) (startTime duration : Rat) : CapturedRequest :=
  { id := rid
    url := url
    method := "GET"
    status := 200
    statusText := "OK"
    requestHeaders := []
    responseHeaders := []
    requestBody := none
    responseBody := none
    startTime := startTime
    endTime := startTime + duration
    duration := duration
    size := 0
    type := "xhr"
    urlPattern := generateUrlPattern url
    initiator := "unknown"
    pageUrl := pageUrl }

def demoUsers1 : CapturedRequest :=
  mkDemoRequest "r1" "https://api.x.com/users/1" "https://a.com/" 0 10

def demoUsers2 : CapturedRequest :=
  mkDemoRequest "r2" "https://api.x.com/users/2" "https://a.com/" 5 20

def demoOrders : CapturedRequest :=
  mkDemoRequest "r3" "https://api.x.com/orders" "https://a.com/" 1 5

/-- A store operation from the claim's alphabet, with the
nondeterministic UUIDs and the clock as explicit data. -/
inductive StoreOp where
  | add (request : NewRequest) (newId sessionId : String) (now : Rat)
  | nav (url : String) (sessionId : String) (now : Rat)
deriving Repr

/-- One step of the tanstackdb store: the hook wrappers hand the current
session list to `addRequest`/`onNavigate`, which write through to the
collections. -/
def applyOp (st : StoreState) : StoreOp → StoreState
  | .add request newId sessionId now =>
    (Collections.addRequest request newId sessionId now st).2
  | .nav url sessionId now =>
    { st with sessions := Collections.onNavigate url sessionId now st.sessions }

/-- Run a finite operation sequence from the empty store. -/
def runOps (ops : List StoreOp) : StoreState := ops.foldl applyOp ⟨[], []⟩

/-- At most one `PageSession` per distinct `pageUrl`. -/
def sessionsUnique (st : StoreState) : Prop :=
  st.sessions.Pairwise (fun a b => a.pageUrl ≠ b.pageUrl)

/-- Demo request handed to `addRequest` in concrete runs. -/
def pingRequest : NewRequest :=
  { url := "https://a.com/api/ping"
    method := "GET"
    status := 200
    statusText := "OK"
    requestHeaders := []
    responseHeaders := []
    requestBody := none
    responseBody := none
    startTime := 0
    endTime := 10
    duration := 10
    size := 0
    type := "xhr"
    initiator := "unknown"
    pageUrl := "https://a.com/" }

/-- Demo session for `https://a.com/`, as `onNavigate` would create it. -/
def demoSession : PageSession :=
  { id := "s1", pageUrl := "https://a.com/", domain := "a.com", path := "/",
    timestamp := 0, requests := [] }

/-- JS `String.prototype.includes` on character lists: does `needle` occur
as a contiguous run? -/
def containsSub (needle : List Char) : List Char → Bool
  | [] => needle.isEmpty
  | c :: cs => needle.isPrefixOf (c :: cs) || containsSub needle cs

/-- JS `hay.includes(needle)`. -/
def strIncludes (hay needle : String) : Bool := containsSub needle.data hay.data

namespace RequestList

/-- The search predicate of `RequestList.tsx`: case-insensitive substring
match of the search text against a request's url or method. -/
def matchesSearch (search : String) (r : CapturedRequest) : Bool :=
  strIncludes (strToLower r.url) (strToLower search)
    || strIncludes (strToLower r.method) (strToLower search)

/-- `filteredGroups` of `src/components/RequestList.tsx`: with no active
filter return the groups unchanged; otherwise filter each group's members
by search text and method, drop groups left empty (`.map` to `null` then
`.filter(Boolean)`, i.e. `filterMap`), and rebuild `count`/`avgDuration`
from the survivors. -/
def filteredGroups (groups : List RequestGroup) (search methodFilter : String) :
    List RequestGroup :=
  if search = "" ∧ methodFilter = "ALL" then groups
  else
    groups.filterMap (fun g =>
      let fr1 := if search ≠ "" then g.requests.filter (matchesSearch search) else g.requests
      let fr := if methodFilter ≠ "ALL" then fr1.filter (fun r => r.method == methodFilter)
        else fr1
      if fr.length = 0 then none
      else some { pattern := g.pattern, requests := fr, count := fr.length,
                  avgDuration := Store.meanDuration fr })

end RequestList

/-- The conjunction of the two member predicates of `filteredGroups`, with
the empty-search and `"ALL"` sentinels disabling each side. -/
def requestPasses (search methodFilter : String) (r : CapturedRequest) : Bool :=
  (search == "" || RequestList.matchesSearch search r)
    && (methodFilter == "ALL" || r.method == methodFilter)

def demoGroupUsers : RequestGroup :=
  { pattern := "https://api.x.com/users/:id", requests := [demoUsers1, demoUsers2],
    count := 2, avgDuration := 15 }

def demoGroupOrders : RequestGroup :=
  { pattern := "https://api.x.com/orders", requests := [demoOrders], count := 1,
    avgDuration := 5 }

def demoOldSession : PageSession :=
  { id := "sOld", pageUrl := "https://old.com/", domain := "old.com", path := "/",
    timestamp := 270000000, requests := [] }

def demoNewSession : PageSession :=
  { id := "sNew", pageUrl := "https://new.com/", domain := "new.com", path := "/",
    timestamp := 356400000, requests := [] }

/-- A store with one stale and one fresh session (relative to a cutoff of
`273600000`), and requests on both pages. -/
def demoEvictState : StoreState :=
  { requests := [mkDemoRequest "rOld" "https://old.com/a" "https://old.com/" 100 1,
                 mkDemoRequest "rNew" "https://old.com/b" "https://old.com/" 300000000 1,
                 mkDemoRequest "rKept" "https://new.com/c" "https://new.com/" 100 1],
    sessions := [demoOldSession, demoNewSession] }

def demoA1Session : PageSession :=
  { id := "sa1", pageUrl := "https://a.com/p1", domain := "a.com", path := "/p1",
    timestamp := 0, requests := [] }

def demoA2Session : PageSession :=
  { id := "sa2", pageUrl := "https://a.com/p2", domain := "a.com", path := "/p2",
    timestamp := 1, requests := [] }

def demoBSession : PageSession :=
  { id := "sb", pageUrl := "https://b.com/p", domain := "b.com", path := "/p",
    timestamp := 2, requests := [] }

/-- Two `a.com` sessions and one `b.com` session, each with one request. -/
def demoDomainState : StoreState :=
  { requests := [mkDemoRequest "ra1" "https://a.com/x" "https://a.com/p1" 0 1,
                 mkDemoRequest "ra2" "https://a.com/y" "https://a.com/p2" 1 1,
                 mkDemoRequest "rb" "https://b.com/z" "https://b.com/p" 2 1],
    sessions := [demoA1Session, demoA2Session, demoBSession] }

/-! ## Sanity checks and claim theorems -/

-- Sanity examples (spec §8 grouping scenario patterns).
example : generateUrlPattern "https://api.x.com/users/1" = "https://api.x.com/users/:id" := by decide
example : generateUrlPattern "https://api.x.com/orders" = "https://api.x.com/orders" := by decide
example : generateUrlPattern "not a url" = "not a url" := by decide
example : Url.parsePageUrl "http://localhost:3000/app" = ⟨"localhost:3000", "/app"⟩ := by decide
example : Collections.parsePageUrl "http://localhost:3000/app" = ⟨"localhost", "/app"⟩ := by decide
example : generateUrlPattern "https://a.com/u/f47ac10b-58cc-4372-a567-0e02b2c3d479/x" = "https://a.com/u/:uuid/x" := by decide
example : generateUrlPattern "https://a.com/u/507f1f77bcf86cd799439011" = "https://a.com/u/:objectId" := by decide
example : generateUrlPattern "https://a.com/p?q=1#f" = "https://a.com/p" := by decide

/-! ## Claims about the Pattern Normalizer -/

theorem substituteSegment_eq_of_segSub {s p : String} (h : segSub? s = some p) :
    substituteSegment s = p := by
  unfold segSub? at h
  unfold substituteSegment
  split at h
  · simp_all
  · split at h
    · simp_all
    · split at h
      · simp_all
      · exact absurd h (by simp)

theorem substituteSegment_eq_of_segCompat {a b : String} (h : segCompat a b = true) :
    substituteSegment a = substituteSegment b := by
  unfold segCompat at h
  rw [Bool.or_eq_true] at h
  rcases h with h | h
  · rw [beq_iff_eq] at h
    rw [h]
  · rcases hp : segSub? a with _ | p <;> rcases hq : segSub? b with _ | q <;>
      rw [hp, hq] at h <;> simp at h
    rw [substituteSegment_eq_of_segSub hp, substituteSegment_eq_of_segSub hq, h]

theorem map_substituteSegment_congr :
    ∀ l1 l2 : List String, l1.length = l2.length →
      ((l1.zip l2).all fun p => segCompat p.1 p.2) = true →
      l1.map substituteSegment = l2.map substituteSegment := by
  intro l1
  induction l1 with
  | nil =>
    intro l2 hlen _
    cases l2 with
    | nil => rfl
    | cons b t => exact absurd hlen (by simp)
  | cons a t ih =>
    intro l2 hlen hall
    cases l2 with
    | nil => exact absurd hlen (by simp)
    | cons b t2 =>
      rw [List.zip_cons_cons, List.all_cons, Bool.and_eq_true] at hall
      simp only [List.map_cons]
      rw [substituteSegment_eq_of_segCompat hall.1,
        ih t2 (by simpa using hlen) hall.2]

/-- C4: for all URLs `u1`, `u2` that parse successfully, share an origin,
and whose non-empty path segments agree pointwise up to segments that the
first-matching-rule classification replaces by the same placeholder
(`:id` for all-digit, `:uuid` for 8-4-4-4-12 hex, `:objectId` for 24-hex),
`generateUrlPattern` produces identical patterns — the pattern is the
origin plus the substituted segments joined by `/`. -/
theorem pattern_stability (u1 u2 : String) (o1 o2 : URLObj)
    (h1 : parseURL u1 = some o1) (h2 : parseURL u2 = some o2)
    (horigin : o1.origin = o2.origin)
    (hlen : (pathParts o1.pathname).length = (pathParts o2.pathname).length)
    (hseg : (((pathParts o1.pathname).zip (pathParts o2.pathname)).all
      fun p => segCompat p.1 p.2) = true) :
    generateUrlPattern u1 = generateUrlPattern u2 := by
  unfold generateUrlPattern
  rw [h1, h2]
  dsimp only
  rw [horigin, map_substituteSegment_congr _ _ hlen hseg]

/-- Witness for C4: `/users/1` and `/users/42` receive the same pattern. -/
theorem pattern_stability_witness :
    generateUrlPattern "https://api.x.com/users/1"
      = generateUrlPattern "https://api.x.com/users/42" :=
  pattern_stability _ _
    ⟨"https", "api.x.com", "", "/users/1", "", ""⟩
    ⟨"https", "api.x.com", "", "/users/42", "", ""⟩
    (by decide) (by decide) (by decide) (by decide) (by decide)

/-- C10: `generateUrlPattern` reads only the origin and the pathname of a
successfully parsed URL — two URLs differing only in query string or
fragment receive the same pattern. -/
theorem pattern_ignores_query_and_fragment (u1 u2 : String) (o1 o2 : URLObj)
    (h1 : parseURL u1 = some o1) (h2 : parseURL u2 = some o2)
    (horigin : o1.origin = o2.origin) (hpath : o1.pathname = o2.pathname) :
    generateUrlPattern u1 = generateUrlPattern u2 := by
  unfold generateUrlPattern
  rw [h1, h2]
  dsimp only
  rw [horigin, hpath]

/-- Witness for C10: a query string and a fragment do not change the
pattern. -/
theorem pattern_ignores_query_and_fragment_witness :
    generateUrlPattern "https://a.com/p?q=1"
      = generateUrlPattern "https://a.com/p#frag" :=
  pattern_ignores_query_and_fragment _ _
    ⟨"https", "a.com", "", "/p", "q=1", ""⟩
    ⟨"https", "a.com", "", "/p", "", "frag"⟩
    (by decide) (by decide) (by decide) (by decide)

/-- C6: on URL parse failure `generateUrlPattern` returns its input
unchanged, and both `parsePageUrl` variants return
`{domain: "unknown", path: "/"}`. -/
theorem parse_failure_fallback (s : String) (h : parseURL s = none) :
    generateUrlPattern s = s
      ∧ Url.parsePageUrl s = ⟨"unknown", "/"⟩
      ∧ Collections.parsePageUrl s = ⟨"unknown", "/"⟩ := by
  unfold generateUrlPattern Url.parsePageUrl Collections.parsePageUrl
  rw [h]
  exact ⟨rfl, rfl, rfl⟩

/-- Witness for C6 at the non-parseable string `"not a url"`. -/
theorem parse_failure_fallback_witness :
    generateUrlPattern "not a url" = "not a url"
      ∧ Url.parsePageUrl "not a url" = ⟨"unknown", "/"⟩
      ∧ Collections.parsePageUrl "not a url" = ⟨"unknown", "/"⟩ :=
  parse_failure_fallback "not a url" (by decide)

/-- Counterexample to C5 as stated: the `parsePageUrl` of
`src/lib/tanstackdb/collections.ts` — one of the two implementations the
claim covers, and the one the store's mutations call — drops the port:
on `http://localhost:3000/app`, whose parsed port is `"3000"`, it returns
domain `"localhost"`, not `"localhost:3000"`. -/
theorem collections_parsePageUrl_drops_port :
    (parseURL "http://localhost:3000/app").map URLObj.port = some "3000"
      ∧ Collections.parsePageUrl "http://localhost:3000/app" = ⟨"localhost", "/app"⟩
      ∧ Collections.parsePageUrl "http://localhost:3000/app" ≠ ⟨"localhost:3000", "/app"⟩ := by
  decide

/-- C5 (amended): for every URL that parses successfully, the
`src/lib/url.ts` `parsePageUrl` returns `hostname:port` as domain when the
port is non-empty and the bare hostname otherwise, while the
`src/lib/tanstackdb/collections.ts` `parsePageUrl` always returns the bare
hostname; both return the raw pathname as path. -/
theorem parsePageUrl_port_handling (u : String) (o : URLObj)
    (h : parseURL u = some o) :
    Url.parsePageUrl u
        = ⟨if o.port = "" then o.hostname else o.hostname ++ ":" ++ o.port, o.pathname⟩
      ∧ Collections.parsePageUrl u = ⟨o.hostname, o.pathname⟩ := by
  unfold Url.parsePageUrl Collections.parsePageUrl
  rw [h]
  exact ⟨rfl, rfl⟩

/-- Witness for the amended C5 at a URL with an explicit port. -/
theorem parsePageUrl_port_handling_witness :
    Url.parsePageUrl "http://localhost:3000/app" = ⟨"localhost:3000", "/app"⟩
      ∧ Collections.parsePageUrl "http://localhost:3000/app" = ⟨"localhost", "/app"⟩ := by
  have h := parsePageUrl_port_handling "http://localhost:3000/app"
    ⟨"http", "localhost", "3000", "/app", "", ""⟩ (by decide)
  exact ⟨by rw [h.1]; rfl, h.2⟩

/-! ## Claims about derived groupings and store mutations -/

theorem valid_contains_iff (sessions : List PageSession) (cutoff : Rat) (u : String) :
    ((sessions.filter (fun s => cutoff ≤ s.timestamp)).map (·.pageUrl)).contains u = true
      ↔ ∃ s ∈ sessions.filter (fun s => ¬ s.timestamp < cutoff), s.pageUrl = u := by
  have hfeq : sessions.filter (fun s => cutoff ≤ s.timestamp)
      = sessions.filter (fun s => ¬ s.timestamp < cutoff) :=
    List.filter_congr (fun s _ => by simp [not_lt])
  rw [hfeq]
  have hmem : (((sessions.filter (fun s => ¬ s.timestamp < cutoff)).map (·.pageUrl)).contains u
        = true)
      ↔ u ∈ (sessions.filter (fun s => ¬ s.timestamp < cutoff)).map (·.pageUrl) :=
    List.elem_iff
  rw [hmem, List.mem_map]

theorem meanDuration_sortByStartTime (rs : List CapturedRequest) :
    Store.meanDuration (Store.sortByStartTime rs) = Store.meanDuration rs := by
  unfold Store.meanDuration Store.sortByStartTime
  have hperm := List.perm_insertionSort Store.startLE rs
  rw [(hperm.map (·.duration)).sum_eq, hperm.length_eq]

theorem not_mem_filter_of_mem {α} {p : α → Bool} {l : List α} {a : α} (h : a ∈ l) :
    a ∉ l.filter p ↔ ¬ p a = true := by
  simp [List.mem_filter, h]

/-- C7: every group produced by `groupedRequests` carries as `avgDuration`
the arithmetic mean of its member requests' durations, and its member
requests sorted ascending by `startTime`. -/
theorem group_average_and_order (reqs : List CapturedRequest) (g : RequestGroup)
    (hg : g ∈ Store.groupedRequests reqs) :
    g.avgDuration = (g.requests.map (·.duration)).sum / (g.requests.length : Rat)
      ∧ g.requests.Pairwise Store.startLE := by
  unfold Store.groupedRequests at hg
  rw [List.mem_map] at hg
  obtain ⟨e, he, rfl⟩ := hg
  constructor
  · show Store.meanDuration e.2
      = ((Store.sortByStartTime e.2).map (·.duration)).sum / ((Store.sortByStartTime e.2).length : Rat)
    rw [show ((Store.sortByStartTime e.2).map (·.duration)).sum / ((Store.sortByStartTime e.2).length : Rat)
        = Store.meanDuration (Store.sortByStartTime e.2) from rfl]
    rw [meanDuration_sortByStartTime]
  · exact List.sorted_insertionSort Store.startLE e.2

/-- Witness for C7 on the spec §8 grouping scenario. -/
theorem group_average_and_order_witness :
    (⟨"https://api.x.com/users/:id", [demoUsers1, demoUsers2], 2, 15⟩ : RequestGroup).avgDuration
        = ((([demoUsers1, demoUsers2] : List CapturedRequest).map (·.duration)).sum
            / (([demoUsers1, demoUsers2] : List CapturedRequest).length : Rat))
      ∧ ([demoUsers1, demoUsers2] : List CapturedRequest).Pairwise Store.startLE :=
  group_average_and_order [demoUsers1, demoUsers2, demoOrders]
    ⟨"https://api.x.com/users/:id", [demoUsers1, demoUsers2], 2, 15⟩ (by decide)

/-- C2: after `cleanupOldSessions`, no surviving session is older than the
cutoff `now − retentionHours·3600000`, and a request is removed exactly
when its `pageUrl` belongs to no surviving session **and** its own
`startTime` is older than the cutoff (so a request whose page is still
tracked survives even when it is itself old). -/
theorem eviction_safety (retentionHours now : Rat) (st : StoreState) :
    (∀ s ∈ (Store.cleanupOldSessions retentionHours now st).sessions,
        ¬ s.timestamp < now - retentionHours * 60 * 60 * 1000)
      ∧ (∀ r ∈ st.requests,
          (r ∉ (Store.cleanupOldSessions retentionHours now st).requests ↔
            (¬ ∃ s ∈ (Store.cleanupOldSessions retentionHours now st).sessions,
                s.pageUrl = r.pageUrl)
              ∧ r.startTime < now - retentionHours * 60 * 60 * 1000)) := by
  unfold Store.cleanupOldSessions
  dsimp only
  constructor
  · intro s hs
    rw [List.mem_filter] at hs
    simpa using hs.2
  · intro r hr
    rw [not_mem_filter_of_mem hr]
    have hiff := valid_contains_iff st.sessions
      (now - retentionHours * 60 * 60 * 1000) r.pageUrl
    simp only [decide_eq_true_eq, not_not]
    constructor
    · rintro ⟨h1, h2⟩
      exact ⟨fun hex => h1 (hiff.mpr hex), h2⟩
    · rintro ⟨h1, h2⟩
      exact ⟨fun hc => h1 (hiff.mp hc), h2⟩

/-- C9: `clearDomain` removes exactly the sessions whose `domain` equals
the argument and exactly the requests whose `pageUrl` belongs to one of
those removed sessions; given the per-pageUrl session uniqueness
invariant, every request belonging to a session of a different domain is
left in place. -/
theorem clearDomain_frame (domain : String) (st : StoreState)
    (huniq : st.sessions.Pairwise (fun a b => a.pageUrl ≠ b.pageUrl)) :
    (∀ s ∈ st.sessions, (s ∈ (Store.clearDomain domain st).sessions ↔ s.domain ≠ domain))
      ∧ (∀ r ∈ st.requests,
          (r ∉ (Store.clearDomain domain st).requests ↔
            ∃ s ∈ st.sessions, s.domain = domain ∧ s.pageUrl = r.pageUrl))
      ∧ (∀ r ∈ st.requests, ∀ s ∈ st.sessions,
          s.domain ≠ domain → s.pageUrl = r.pageUrl →
            r ∈ (Store.clearDomain domain st).requests) := by
  unfold Store.clearDomain
  dsimp only
  refine ⟨?_, ?_, ?_⟩
  · intro s hs
    rw [List.mem_filter]
    simp [hs]
  · intro r hr
    rw [not_mem_filter_of_mem hr]
    simp only [decide_eq_true_eq, not_not]
    constructor
    · intro hc
      have hmem : r.pageUrl
          ∈ (st.sessions.filter (fun s => s.domain == domain)).map (·.pageUrl) :=
        List.elem_iff.mp hc
      rw [List.mem_map] at hmem
      obtain ⟨s, hs, hurl⟩ := hmem
      rw [List.mem_filter] at hs
      exact ⟨s, hs.1, by simpa using hs.2, hurl⟩
    · rintro ⟨s, hs, hdom, hurl⟩
      apply List.elem_iff.mpr
      rw [List.mem_map]
      exact ⟨s, List.mem_filter.mpr ⟨hs, by simp [hdom]⟩, hurl⟩
  · intro r hr s hs hdom hurl
    rw [List.mem_filter]
    refine ⟨hr, ?_⟩
    simp only [decide_eq_true_eq]
    intro hc
    have hmem : r.pageUrl
        ∈ (st.sessions.filter (fun s => s.domain == domain)).map (·.pageUrl) :=
      List.elem_iff.mp hc
    rw [List.mem_map] at hmem
    obtain ⟨s', hs', hurl'⟩ := hmem
    rw [List.mem_filter] at hs'
    have hdom' : s'.domain = domain := by simpa using hs'.2
    have hne : s ≠ s' := fun e => hdom (e ▸ hdom')
    have hsymm : Symmetric (fun a b : PageSession => a.pageUrl ≠ b.pageUrl) :=
      fun a b h e => h e.symm
    exact (huniq.forall hsymm) hs hs'.1 hne (hurl.trans hurl'.symm)

theorem pairwise_ensureSession (sessions : List PageSession) (url : String)
    (ns : PageSession) (hurl : ns.pageUrl = url)
    (h : sessions.Pairwise (fun a b => a.pageUrl ≠ b.pageUrl)) :
    (if (sessions.find? (fun s => s.pageUrl == url)).isSome then sessions
      else sessions ++ [ns]).Pairwise (fun a b => a.pageUrl ≠ b.pageUrl) := by
  split
  · exact h
  · next hnone =>
    rw [List.pairwise_append]
    refine ⟨h, List.pairwise_singleton _ _, ?_⟩
    intro a ha b hb
    rw [List.mem_singleton] at hb
    subst hb
    have hn := List.find?_eq_none.mp (Option.not_isSome_iff_eq_none.mp hnone) a ha
    rw [hurl]
    intro he
    exact hn (by simp [he])

theorem applyOp_preserves_unique (st : StoreState) (op : StoreOp)
    (h : sessionsUnique st) : sessionsUnique (applyOp st op) := by
  cases op with
  | add request newId sessionId now =>
    exact pairwise_ensureSession st.sessions request.pageUrl _ rfl h
  | nav url sessionId now =>
    exact pairwise_ensureSession st.sessions url _ rfl h

theorem foldl_preserves_unique (ops : List StoreOp) (st : StoreState)
    (h : sessionsUnique st) : sessionsUnique (ops.foldl applyOp st) := by
  induction ops generalizing st with
  | nil => exact h
  | cons op rest ih => exact ih _ (applyOp_preserves_unique st op h)

/-- C3: every finite `add`/`onNavigate` sequence from the empty store
keeps at most one session per distinct `pageUrl` (every prefix of a
sequence is itself a sequence, so this holds at every point in time), and
`onNavigate` on a URL whose session exists leaves the session collection
unchanged. -/
theorem session_uniqueness (ops : List StoreOp) :
    sessionsUnique (runOps ops)
      ∧ ∀ (sessions : List PageSession) (url sessionId : String) (now : Rat),
          (∃ s ∈ sessions, s.pageUrl = url) →
          Collections.onNavigate url sessionId now sessions = sessions := by
  constructor
  · exact foldl_preserves_unique ops ⟨[], []⟩ List.Pairwise.nil
  · intro sessions url sessionId now hex
    have hsome : (sessions.find? (fun s => s.pageUrl == url)).isSome = true := by
      rw [List.find?_isSome]
      obtain ⟨s, hs, hurl⟩ := hex
      exact ⟨s, hs, by simp [hurl]⟩
    unfold Collections.onNavigate
    simp [hsome]

/-- Witness for C3: the spec §8 session-lifecycle scenario, plus the
explicit no-op of a repeated `onNavigate`. -/
theorem session_uniqueness_witness :
    sessionsUnique (runOps [StoreOp.nav "https://a.com/" "s1" 0,
        StoreOp.add pingRequest "r1" "s2" 1, StoreOp.nav "https://a.com/" "s3" 2])
      ∧ Collections.onNavigate "https://a.com/" "s3" 2 [demoSession] = [demoSession] :=
  ⟨(session_uniqueness [StoreOp.nav "https://a.com/" "s1" 0,
      StoreOp.add pingRequest "r1" "s2" 1, StoreOp.nav "https://a.com/" "s3" 2]).1,
    (session_uniqueness []).2 [demoSession] "https://a.com/" "s3" 2
      ⟨demoSession, by decide, rfl⟩⟩

/-- Counterexample to C1 as stated: the tanstackdb `addRequest` — the add
operation of the store the panel uses — creates the missing session with
an **empty** request list and never appends the new request to it.  After
adding one request to the empty store, the session for the request's
`pageUrl` exists but its `requests` list is still empty. -/
theorem addRequest_session_list_stays_empty :
    ((Collections.addRequest pingRequest "r1" "s1" 5 ⟨[], []⟩).2.sessions.map
        (·.pageUrl)) = ["https://a.com/"]
      ∧ ((Collections.addRequest pingRequest "r1" "s1" 5 ⟨[], []⟩).2.sessions.map
        (·.requests)) = [[]] := by
  decide

theorem appendToFirstMatch_some {pageUrl : String} {r : CapturedRequest} :
    ∀ {sessions res : List PageSession},
      Legacy.appendToFirstMatch pageUrl r sessions = some res →
      ∃ s ∈ res, r ∈ s.requests := by
  intro sessions
  induction sessions with
  | nil =>
    intro res h
    exact absurd h (by simp [Legacy.appendToFirstMatch])
  | cons s rest ih =>
    intro res h
    unfold Legacy.appendToFirstMatch at h
    split at h
    · cases h
      exact ⟨_, List.mem_cons_self _ _, by simp⟩
    · cases hr : Legacy.appendToFirstMatch pageUrl r rest with
      | none => rw [hr] at h; simp at h
      | some l =>
        rw [hr] at h
        have h' : s :: l = res := by simpa using h
        subst h'
        obtain ⟨s', hs', hmem⟩ := ih hr
        exact ⟨s', List.mem_cons_of_mem _ hs', hmem⟩

/-- C1 (amended): `addRequest` assigns the fresh id and the derived
`urlPattern`, appends the new record to the request collection, ensures a
`PageSession` exists for the request's `pageUrl` (creating one with an
empty request list and the current timestamp when absent, leaving an
existing one untouched), and returns the stored record — but the
tanstackdb implementation does **not** append the new request to that
session's `requests` list; only the legacy hook's `addRequest` does
(after it, the new request always sits inside some session's list). -/
theorem addRequest_characterisation (request : NewRequest) (newId sessionId : String)
    (now : Rat) (st : StoreState) :
    (Collections.addRequest request newId sessionId now st).1 = mkCaptured request newId
      ∧ (mkCaptured request newId).id = newId
      ∧ (mkCaptured request newId).urlPattern = generateUrlPattern request.url
      ∧ (Collections.addRequest request newId sessionId now st).2.requests
          = st.requests ++ [mkCaptured request newId]
      ∧ ((∃ s ∈ st.sessions, s.pageUrl = request.pageUrl) →
          (Collections.addRequest request newId sessionId now st).2.sessions = st.sessions)
      ∧ ((∀ s ∈ st.sessions, s.pageUrl ≠ request.pageUrl) →
          (Collections.addRequest request newId sessionId now st).2.sessions
            = st.sessions ++
              [{ id := sessionId, pageUrl := request.pageUrl,
                 domain := (Collections.parsePageUrl request.pageUrl).domain,
                 path := (Collections.parsePageUrl request.pageUrl).path,
                 timestamp := now, requests := [] }])
      ∧ (∃ s ∈ (Legacy.addRequest request newId sessionId now st).2.sessions,
          (Legacy.addRequest request newId sessionId now st).1 ∈ s.requests) := by
  refine ⟨rfl, rfl, rfl, rfl, ?_, ?_, ?_⟩
  · intro hex
    have hsome : (st.sessions.find? (fun s => s.pageUrl == request.pageUrl)).isSome = true := by
      rw [List.find?_isSome]
      obtain ⟨s, hs, hurl⟩ := hex
      exact ⟨s, hs, by simp [hurl]⟩
    unfold Collections.addRequest
    simp [hsome]
  · intro hall
    have hnone : st.sessions.find? (fun s => s.pageUrl == request.pageUrl) = none := by
      rw [List.find?_eq_none]
      intro s hs
      simp [hall s hs]
    unfold Collections.addRequest
    simp [hnone]
  · unfold Legacy.addRequest
    dsimp only
    cases happ : Legacy.appendToFirstMatch request.pageUrl (mkCaptured request newId)
        st.sessions with
    | some l =>
      obtain ⟨s, hs, hmem⟩ := appendToFirstMatch_some happ
      exact ⟨s, hs, hmem⟩
    | none =>
      refine ⟨_, List.mem_append_right _ (List.mem_singleton.mpr rfl), ?_⟩
      simp

/-- Witness for the amended C1 at the empty store: the session is created
with an empty request list, the request lands in the request collection,
and the legacy store additionally files it inside the session. -/
theorem addRequest_characterisation_witness :
    (Collections.addRequest pingRequest "r1" "s1" 5 ⟨[], []⟩).1 = mkCaptured pingRequest "r1"
      ∧ (Collections.addRequest pingRequest "r1" "s1" 5 ⟨[], []⟩).2.requests
          = [] ++ [mkCaptured pingRequest "r1"]
      ∧ (Collections.addRequest pingRequest "r1" "s1" 5 ⟨[], []⟩).2.sessions
          = [] ++ [{ id := "s1", pageUrl := pingRequest.pageUrl,
                     domain := (Collections.parsePageUrl pingRequest.pageUrl).domain,
                     path := (Collections.parsePageUrl pingRequest.pageUrl).path,
                     timestamp := 5, requests := [] }]
      ∧ ∃ s ∈ (Legacy.addRequest pingRequest "r1" "s1" 5 ⟨[], []⟩).2.sessions,
          (Legacy.addRequest pingRequest "r1" "s1" 5 ⟨[], []⟩).1 ∈ s.requests := by
  have h := addRequest_characterisation pingRequest "r1" "s1" 5 ⟨[], []⟩
  exact ⟨h.1, h.2.2.2.1,
    h.2.2.2.2.2.1 (fun s hs => absurd hs (List.not_mem_nil s)),
    h.2.2.2.2.2.2⟩

theorem filterMap_eq_self {α : Type} (l : List α) (f : α → Option α)
    (h : ∀ a ∈ l, f a = some a) : l.filterMap f = l := by
  induction l with
  | nil => rfl
  | cons a t ih =>
    have h1 := h a (List.mem_cons_self a t)
    have h2 := ih (fun b hb => h b (List.mem_cons_of_mem a hb))
    simp [List.filterMap_cons, h1, h2]

/-- C8: on well-formed groups — `count`/`avgDuration` consistent with a
non-empty member list, which is exactly what `groupedRequests` produces —
`filteredGroups` re-derives every surviving group from exactly the member
requests that pass the filter (count, average and member list), and drops
any group whose members are all filtered out. -/
theorem filterGroups_recomputes (groups : List RequestGroup) (search methodFilter : String)
    (hwf : ∀ g ∈ groups, g.count = g.requests.length
      ∧ g.avgDuration = Store.meanDuration g.requests ∧ g.requests ≠ []) :
    RequestList.filteredGroups groups search methodFilter
      = groups.filterMap (fun g =>
          if g.requests.filter (requestPasses search methodFilter) = [] then none
          else some { pattern := g.pattern,
                      requests := g.requests.filter (requestPasses search methodFilter),
                      count := (g.requests.filter (requestPasses search methodFilter)).length,
                      avgDuration :=
                        Store.meanDuration
                          (g.requests.filter (requestPasses search methodFilter)) }) := by
  unfold RequestList.filteredGroups
  split
  · next htriv =>
    obtain ⟨hs, hm⟩ := htriv
    subst hs
    subst hm
    refine (filterMap_eq_self groups _ ?_).symm
    intro g hg
    obtain ⟨hcount, havg, hne⟩ := hwf g hg
    have hpred : g.requests.filter (requestPasses "" "ALL") = g.requests :=
      List.filter_eq_self.mpr (fun r _ => rfl)
    rw [hpred, if_neg hne]
    cases g with
    | mk p rs c a =>
      dsimp only at hcount havg ⊢
      rw [hcount, havg]
  · next hns =>
    apply List.filterMap_congr
    intro g hg
    dsimp only
    have hfr : (if methodFilter ≠ "ALL"
          then (if search ≠ "" then g.requests.filter (RequestList.matchesSearch search)
                else g.requests).filter (fun r => r.method == methodFilter)
          else (if search ≠ "" then g.requests.filter (RequestList.matchesSearch search)
                else g.requests))
        = g.requests.filter (requestPasses search methodFilter) := by
      by_cases hs : search = ""
      · by_cases hm : methodFilter = "ALL"
        · exact absurd ⟨hs, hm⟩ hns
        · rw [if_pos hm, if_neg (fun h => h hs)]
          refine List.filter_congr ?_
          intro r _
          subst hs
          simp [requestPasses, beq_eq_false_iff_ne.mpr hm]
      · by_cases hm : methodFilter = "ALL"
        · rw [if_neg (fun h => h hm), if_pos hs]
          refine List.filter_congr ?_
          intro r _
          subst hm
          simp [requestPasses, beq_eq_false_iff_ne.mpr hs]
        · rw [if_pos hm, if_pos hs, List.filter_filter]
          refine List.filter_congr ?_
          intro r _
          simp [requestPasses, beq_eq_false_iff_ne.mpr hs, beq_eq_false_iff_ne.mpr hm,
            Bool.and_comm]
    rw [hfr]
    by_cases hemp : List.filter (requestPasses search methodFilter) g.requests = []
    · have h0 : (List.filter (requestPasses search methodFilter) g.requests).length = 0 := by
        rw [hemp]
        rfl
      rw [if_pos h0, if_pos hemp]
    · have h0 : ¬ (List.filter (requestPasses search methodFilter) g.requests).length = 0 :=
        fun h => hemp (List.length_eq_zero.mp h)
      rw [if_neg h0, if_neg hemp]

/-- Witness for C8: searching `"order"` over the spec §8 groups — the
surviving group is rebuilt from exactly its matching members. -/
theorem filterGroups_recomputes_witness :
    RequestList.filteredGroups [demoGroupUsers, demoGroupOrders] "order" "ALL"
      = [demoGroupUsers, demoGroupOrders].filterMap (fun g =>
          if g.requests.filter (requestPasses "order" "ALL") = [] then none
          else some { pattern := g.pattern,
                      requests := g.requests.filter (requestPasses "order" "ALL"),
                      count := (g.requests.filter (requestPasses "order" "ALL")).length,
                      avgDuration :=
                        Store.meanDuration
                          (g.requests.filter (requestPasses "order" "ALL")) }) :=
  filterGroups_recomputes [demoGroupUsers, demoGroupOrders] "order" "ALL" (by decide)

/-- Witness for C2: the spec §8 retention scenario (25-hour-old session,
24-hour retention) run at `now = 360000000`. -/
theorem eviction_safety_witness :
    (∀ s ∈ (Store.cleanupOldSessions 24 360000000 demoEvictState).sessions,
        ¬ s.timestamp < 360000000 - 24 * 60 * 60 * 1000)
      ∧ (∀ r ∈ demoEvictState.requests,
          (r ∉ (Store.cleanupOldSessions 24 360000000 demoEvictState).requests ↔
            (¬ ∃ s ∈ (Store.cleanupOldSessions 24 360000000 demoEvictState).sessions,
                s.pageUrl = r.pageUrl)
              ∧ r.startTime < 360000000 - 24 * 60 * 60 * 1000)) :=
  eviction_safety 24 360000000 demoEvictState

/-- Witness for C9: the spec §8 domain-clear scenario,
`clearByDomain("a.com")`. -/
theorem clearDomain_frame_witness :
    (∀ s ∈ demoDomainState.sessions,
        (s ∈ (Store.clearDomain "a.com" demoDomainState).sessions ↔ s.domain ≠ "a.com"))
      ∧ (∀ r ∈ demoDomainState.requests,
          (r ∉ (Store.clearDomain "a.com" demoDomainState).requests ↔
            ∃ s ∈ demoDomainState.sessions, s.domain = "a.com" ∧ s.pageUrl = r.pageUrl))
      ∧ (∀ r ∈ demoDomainState.requests, ∀ s ∈ demoDomainState.sessions,
          s.domain ≠ "a.com" → s.pageUrl = r.pageUrl →
            r ∈ (Store.clearDomain "a.com" demoDomainState).requests) :=
  clearDomain_frame "a.com" demoDomainState (by decide)

